import Mathlib

/-!
# Verification of the freehand drawing tool's fitting pipeline

This file embeds the core of `freehand.py` — the three-stage pipeline
TurnDetector → LineFitter → CurveFitter — as executable Lean definitions and
proves properties of them.  Real-valued Qt points (`QPointF`) are modelled by
pairs of rationals; elapsed times (milliseconds, from `QTime.restart`) by
naturals.  Each definition is a direct transcription of the corresponding
Python function, with the stateful coroutine filters rendered as explicit
state-passing step functions.
-/

namespace Freehand

/-- Real-valued 2D point (models `QPointF`); also used for vectors. -/
@[ext] structure Point where
  x : ℚ
  y : ℚ
deriving DecidableEq

instance : Sub Point := ⟨fun a b => ⟨a.x - b.x, a.y - b.y⟩⟩

@[simp] theorem Point.sub_def (a b : Point) : a - b = ⟨a.x - b.x, a.y - b.y⟩ := rfl

/-- Model of `QLineF`: a segment from `p1` to `p2` (called PathLine in the spec). -/
structure PathLine where
  p1 : Point
  p2 : Point
deriving DecidableEq

/-- Transcribes `sign` (freehand.py line 204). -/
def sign (x : ℚ) : ℚ :=
  if x > 0 then 1 else if x < 0 then -1 else 0

/-- Transcribes `crossProduct` (line 212): `p1.x*p2.y - p1.y*p2.x`. -/
def crossProduct (p1 p2 : Point) : ℚ := p1.x * p2.y - p1.y * p2.x

/-- Transcribes `nullLine` (line 216): a zero length PathLine at a point. -/
def nullLine (point : Point) : PathLine := ⟨point, point⟩

/-! ## Output data model

A `GraphicElement` is the tagged output variant: `addItem` receives either a
one-tuple `(endpoint,)` (a line) or a three-tuple `(cp1, cp2, endpoint)`
(a cubic curve); each element implicitly starts at the previous end of the
PointerTrack. -/

/-- Output path element: a straight segment or a cubic curve, each carrying
only its endpoint(s) — the start is implicitly the previous element's end. -/
inductive GraphicElement where
  | lineSegment (endpoint : Point)
  | cubicCurve (control1 control2 endpoint : Point)
deriving DecidableEq

/-- Endpoint of a graphic element (the point where the next element starts). -/
def GraphicElement.endpoint : GraphicElement → Point
  | .lineSegment e => e
  | .cubicCurve _ _ e => e

/-! ## Curve fitting auxiliaries (freehand.py lines 620-708) -/

/-- Transcribes `interval` (line 669): point fractionally along the segment
from `point1` to `point2`. -/
def interval (fraction : ℚ) (point1 point2 : Point) : Point :=
  ⟨point1.x + fraction * (point2.x - point1.x),
   point1.y + fraction * (point2.y - point1.y)⟩

/-- Transcribes `cardinalDirectionLeft90` (line 697): vector 90 degrees
counterclockwise from `p1 - p0`, clamped to a cardinal direction. -/
def cardinalDirectionLeft90 (p0 p1 : Point) : Point :=
  ⟨-sign (p1.y - p0.y), sign (p1.x - p0.x)⟩

/-- Transcribes `ddenom` (line 683). -/
def ddenom (p0 p1 : Point) : ℚ :=
  (cardinalDirectionLeft90 p0 p1).y * (p1.x - p0.x) -
    (cardinalDirectionLeft90 p0 p1).x * (p1.y - p0.y)

/-- Transcribes `areaOfParallelogram` (line 689): scalar cross product of
`p1 - p0` and `p2 - p0`. -/
def areaOfParallelogram (p0 p1 p2 : Point) : ℚ :=
  (p1.x - p0.x) * (p2.y - p0.y) - (p2.x - p0.x) * (p1.y - p0.y)

/-- Transcribes `clampAlpha` (line 705). -/
def clampAlpha (alpha : ℚ) : ℚ :=
  if alpha < 0.55 then 0.55 else if alpha > 1 then 1 else alpha

/-- Parameter `ALPHAMAX` (line 184): cusp threshold, default 1.2. -/
def ALPHAMAX : ℚ := 1.2

/-- Parameter `MAX_POINTER_ELAPSED_FOR_SMOOTH` (line 188), milliseconds. -/
def MAX_POINTER_ELAPSED_FOR_SMOOTH : ℕ := 100

/-- Transcribes `createLinePathElement` (line 620): a line element is the
tuple holding a single endpoint. -/
def createLinePathElement (endPoint : Point) : GraphicElement :=
  .lineSegment endPoint

/-- Transcribes `createCusp` (line 630): two straight elements, to the cusp
point then to the endpoint, together with the new end of the PointerTrack. -/
def createCusp (cuspPoint endPoint : Point) : List GraphicElement × Point :=
  ([createLinePathElement cuspPoint, createLinePathElement endPoint], endPoint)

/-- Transcribes `createSplinePathElement` (line 651): a single cubic element
plus the new end of the PointerTrack. -/
def createSplinePathElement (controlPoint1 controlPoint2 endPt : Point) :
    List GraphicElement × Point :=
  ([.cubicCurve controlPoint1 controlPoint2 endPt], endPt)

/-- The curvature metric `alpha` computed inline in `curvesFromLineMidToMid`
(lines 579-587), factored out so theorems can refer to it: with
`point1 = line1.p1`, `point2 = line1.p2`, `point3 = line2.p2`,
`denom = ddenom point1 point3`; if `denom ≠ 0` then
`dd = |areaOfParallelogram point1 point2 point3 / denom|` and
`alpha = (1 - 1/dd)/0.75` when `dd > 1`, else `0`; if `denom = 0` then
`alpha = 4/3`. -/
def midAlpha (line1 line2 : PathLine) : ℚ :=
  if ddenom line1.p1 line2.p2 ≠ 0 then
    if |areaOfParallelogram line1.p1 line1.p2 line2.p2 / ddenom line1.p1 line2.p2| > 1 then
      (1 - 1 / |areaOfParallelogram line1.p1 line1.p2 line2.p2 / ddenom line1.p1 line2.p2|) / 0.75
    else 0
  else 4 / 3

/-- Transcribes `curvesFromLineMidToMid` (lines 562-600), with the cusp
threshold `alphamax` made an explicit argument (the source reads the global
`ALPHAMAX`).  `midpoint2 = interval (1/2) line2.p2 line1.p2` is the midpoint
of the second line. -/
def curvesFromLineMidToMid (alphamax : ℚ) (line1 line2 : PathLine) :
    List GraphicElement × Point :=
  if midAlpha line1 line2 > alphamax then
    createCusp line1.p2 (interval (1/2) line2.p2 line1.p2)
  else
    createSplinePathElement
      (interval (0.5 + 0.5 * clampAlpha (midAlpha line1 line2)) line1.p1 line1.p2)
      (interval (0.5 + 0.5 * clampAlpha (midAlpha line1 line2)) line2.p2 line1.p2)
      (interval (1/2) line2.p2 line1.p2)

/-- Transcribes `curvesFromLineMidToEnd` (lines 602-611): the mid-to-mid fit
followed by one more line element to the end of the second line. -/
def curvesFromLineMidToEnd (alphamax : ℚ) (line1 line2 : PathLine) :
    List GraphicElement × Point :=
  ((curvesFromLineMidToMid alphamax line1 line2).1 ++
      [createLinePathElement line2.p2],
   line2.p2)

/-! ## Constraints (freehand.py lines 750-797) -/

/-- The constraint region (tangent cone): a pair of bounding vectors. -/
structure Constraints where
  constraintLeft : Point
  constraintRight : Point
deriving DecidableEq

/-- Transcribes `Constraints.__init__` (line 759): both bounds are null
vectors. -/
def Constraints.init : Constraints := ⟨⟨0, 0⟩, ⟨0, 0⟩⟩

/-- Transcribes `Constraints.isViolatedBy` (line 767): the vector lies
outside the constraint vectors. -/
def Constraints.isViolatedBy (c : Constraints) (vector : Point) : Prop :=
  crossProduct c.constraintLeft vector < 0 ∨
    crossProduct c.constraintRight vector > 0

instance (c : Constraints) (vector : Point) : Decidable (c.isViolatedBy vector) :=
  inferInstanceAs (Decidable (_ ∨ _))

/-- The first offset vector computed in `Constraints.update` (line 789),
used as candidate for the left bound. -/
def leftOffset (v : Point) : Point :=
  ⟨v.x + (if v.y ≥ 0 ∧ (v.y > 0 ∨ v.x < 0) then 1 else -1),
   v.y + (if v.x ≤ 0 ∧ (v.x < 0 ∨ v.y < 0) then 1 else -1)⟩

/-- The second offset vector computed in `Constraints.update` (line 794),
used as candidate for the right bound. -/
def rightOffset (v : Point) : Point :=
  ⟨v.x + (if v.y ≤ 0 ∧ (v.y < 0 ∨ v.x < 0) then 1 else -1),
   v.y + (if v.x ≥ 0 ∧ (v.x > 0 ∨ v.y < 0) then 1 else -1)⟩

/-- Transcribes `Constraints.update` (lines 772-797): the left bound is
replaced by `leftOffset v` when its cross product with it is non-negative,
then the right bound by `rightOffset v` when its cross product with it is
non-positive. -/
def Constraints.update (c : Constraints) (v : Point) : Constraints :=
  let c1 := if crossProduct c.constraintLeft (leftOffset v) ≥ 0 then
      { c with constraintLeft := leftOffset v } else c
  if crossProduct c1.constraintRight (rightOffset v) ≤ 0 then
    { c1 with constraintRight := rightOffset v } else c1

/-! ## TurnDetector (freehand.py lines 317-346, 451-459)

The coroutine `TurnGenerator` keeps `previousPosition` (last position rolled
forward on emission) and the last pushed `position`; it is rendered as a state
record with a push step and a close step.  `lastPosition` is `none` before the
first push (the Python variable is `None` then). -/

/-- Transcribes `detectTurn` (line 451): `position2` is a turn iff it differs
from `position1` on both axes. -/
def detectTurn (position1 position2 : Point) : Option Point :=
  if position1.x ≠ position2.x ∧ position1.y ≠ position2.y then some position2
  else none

/-- State of the `TurnGenerator` coroutine: `previousPosition` and the last
pushed `position`. -/
structure TurnDetectorState where
  previousPosition : Point
  lastPosition : Option Point
deriving DecidableEq

/-- Initial `TurnGenerator` state (lines 324-325). -/
def TurnDetectorState.init (startPosition : Point) : TurnDetectorState :=
  ⟨startPosition, none⟩

/-- One iteration of the `TurnGenerator` loop (lines 332-340): on a turn,
emit `(turn, elapsed)` downstream and roll `previousPosition` forward;
otherwise wait.  Returns the new state and the optional emission. -/
def turnGeneratorPush (s : TurnDetectorState) (position : Point)
    (positionElapsedTime : ℕ) : TurnDetectorState × Option (Point × ℕ) :=
  match detectTurn s.previousPosition position with
  | some turn => (⟨position, some position⟩, some (turn, positionElapsedTime))
  | none => (⟨s.previousPosition, some position⟩, none)

/-- The `finally` clause of `TurnGenerator` (lines 341-345): on close, if the
last pushed position was not rolled into `previousPosition`, emit it as a
final Turn with elapsed time 0.  (Modelled for states after at least one
push; before any push the Python variable `position` is `None`.) -/
def turnGeneratorClose (s : TurnDetectorState) : Option (Point × ℕ) :=
  match s.lastPosition with
  | some position =>
      if s.previousPosition ≠ position then some (position, 0) else none
  | none => none

/-! ## LineFitter (freehand.py lines 349-543) -/

/-- State of the `LineGenerator` coroutine: `startTurn`, `previousTurn` and
the constraint region (lines 360-362). -/
structure LineFitterState where
  startTurn : Point
  previousTurn : Point
  constraints : Constraints
deriving DecidableEq

/-- Initial `LineGenerator` state: both turns at the start position, null
constraints. -/
def LineFitterState.init (startPosition : Point) : LineFitterState :=
  ⟨startPosition, startPosition, Constraints.init⟩

/-- Transcribes `interpolateConstraintViolating` (line 525): a null
interpolation, simply the PathLine to the last satisfying turn. -/
def interpolateConstraintViolating (startTurn lastSatisfyingTurn
    _firstNonsatisfyingTurn : Point) : PathLine :=
  ⟨startTurn, lastSatisfyingTurn⟩

/-- Transcribes `forceLineFromPath` (line 536): a PathLine to the current
turn, regardless of constraints (the source also resets the constraints
there; the reset appears in the state returned by `lineGeneratorPush`). -/
def forceLineFromPath (startTurn _previousTurn currentTurn : Point) : PathLine :=
  ⟨startTurn, currentTurn⟩

/-- One iteration of the `LineGenerator` loop (lines 367-386) combined with
`lineFromPath` (lines 509-523): on constraint violation emit the unforced
line to `previousTurn` and reset; else on a long elapsed time emit the forced
line to the current turn and reset; else just tighten the constraints.
`previousTurn` always rolls forward to the current turn. -/
def lineGeneratorPush (s : LineFitterState) (turn : Point)
    (positionElapsedTime : ℕ) : LineFitterState × Option (PathLine × Bool) :=
  if s.constraints.isViolatedBy (turn - s.startTurn) then
    (⟨s.previousTurn, turn, Constraints.init⟩,
     some (interpolateConstraintViolating s.startTurn s.previousTurn turn, false))
  else if positionElapsedTime > MAX_POINTER_ELAPSED_FOR_SMOOTH then
    (⟨s.previousTurn, turn, Constraints.init⟩,
     some (forceLineFromPath s.startTurn s.previousTurn turn, true))
  else
    (⟨s.startTurn, turn, s.constraints.update (turn - s.startTurn)⟩, none)

/-! ## CurveFitter (freehand.py lines 400-443) -/

/-- One iteration of the `CurveGenerator` loop (lines 409-426): state is
`previousLine`; on a forced line fit mid-to-end and restart from a null line
at the path end point, else fit mid-to-mid and roll the line forward.
Returns the new `previousLine`, the emitted elements, and the new end of the
PointerTrack (`pathEndPoint`). -/
def curveGeneratorPush (alphamax : ℚ) (previousLine : PathLine)
    (line : PathLine) (isLineForced : Bool) :
    PathLine × List GraphicElement × Point :=
  if isLineForced then
    (nullLine (curvesFromLineMidToEnd alphamax previousLine line).2,
     (curvesFromLineMidToEnd alphamax previousLine line).1,
     (curvesFromLineMidToEnd alphamax previousLine line).2)
  else
    (line,
     (curvesFromLineMidToMid alphamax previousLine line).1,
     (curvesFromLineMidToMid alphamax previousLine line).2)

/-! ## Helper lemmas -/

theorem sign_mul_self (x : ℚ) : sign x * x = |x| := by
  unfold sign
  rcases lt_trichotomy x 0 with h | h | h
  · rw [if_neg (by linarith), if_pos h, abs_of_neg h]; ring
  · simp [h]
  · rw [if_pos h, abs_of_pos h]; ring

theorem ddenom_eq_abs (p0 p1 : Point) :
    ddenom p0 p1 = |p1.x - p0.x| + |p1.y - p0.y| := by
  unfold ddenom cardinalDirectionLeft90
  dsimp only
  rw [← sign_mul_self (p1.x - p0.x), ← sign_mul_self (p1.y - p0.y)]
  ring

theorem ddenom_eq_zero_iff (p0 p1 : Point) : ddenom p0 p1 = 0 ↔ p0 = p1 := by
  rw [ddenom_eq_abs]
  constructor
  · intro h
    have h1 : (0:ℚ) ≤ |p1.x - p0.x| := abs_nonneg _
    have h2 : (0:ℚ) ≤ |p1.y - p0.y| := abs_nonneg _
    have hx : p1.x - p0.x = 0 := abs_eq_zero.mp (by linarith)
    have hy : p1.y - p0.y = 0 := abs_eq_zero.mp (by linarith)
    ext
    · linarith
    · linarith
  · intro h
    subst h
    simp

theorem midAlpha_nonneg_le (line1 line2 : PathLine) :
    0 ≤ midAlpha line1 line2 ∧ midAlpha line1 line2 ≤ 4 / 3 := by
  unfold midAlpha
  set d := |areaOfParallelogram line1.p1 line1.p2 line2.p2 / ddenom line1.p1 line2.p2|
    with hd
  split_ifs with hden hdd
  · have h0 : (0:ℚ) < d := lt_trans one_pos hdd
    have hinv1 : 1 / d < 1 := by rw [div_lt_one h0]; exact hdd
    have hinv0 : 0 < 1 / d := by positivity
    constructor
    · exact div_nonneg (by linarith) (by norm_num)
    · rw [div_le_iff₀ (by norm_num : (0:ℚ) < 0.75)]
      have h34 : (4:ℚ) / 3 * 0.75 = 1 := by norm_num
      rw [h34]
      linarith
  · norm_num
  · norm_num

/-! ## Claim C1 -/

/-- Claim C1, counterexample: for the three collinear points `(0,0)`,
`(10,0)`, `(20,0)`, the mid-to-mid fit computes `denom = ddenom((0,0),(20,0))
= 20`, not `0`; `alpha = 0`, not `4/3`; and it returns a single `CubicCurve`,
not a cusp of two `LineSegment`s — refuting the claim at this input. -/
theorem c1_collinear_counterexample :
    ddenom ⟨0, 0⟩ ⟨20, 0⟩ = 20
    ∧ midAlpha ⟨⟨0, 0⟩, ⟨10, 0⟩⟩ ⟨⟨10, 0⟩, ⟨20, 0⟩⟩ = 0
    ∧ curvesFromLineMidToMid ALPHAMAX ⟨⟨0, 0⟩, ⟨10, 0⟩⟩ ⟨⟨10, 0⟩, ⟨20, 0⟩⟩
        = ([GraphicElement.cubicCurve ⟨7.75, 0⟩ ⟨12.25, 0⟩ ⟨15, 0⟩], ⟨15, 0⟩) := by
  refine ⟨?_, ?_, ?_⟩
  · norm_num [ddenom, cardinalDirectionLeft90, sign]
  · norm_num [midAlpha, ddenom, cardinalDirectionLeft90, sign, areaOfParallelogram]
  · norm_num [curvesFromLineMidToMid, midAlpha, ddenom, cardinalDirectionLeft90, sign,
      areaOfParallelogram, ALPHAMAX, clampAlpha, createSplinePathElement, interval]

/-- Claim C1, amended: for `point1=(0,0)`, `point2=(10,0)`, `point3=(20,0)`
the mid-to-mid fit computes `denom = ddenom(point1, point3) = 20 ≠ 0`, hence
`alpha = 0 ≤ ALPHAMAX = 1.2`, and therefore returns a single `CubicCurve`
(clamped alpha `0.55`, controls `(7.75,0)` and `(12.25,0)`, endpoint
`(15,0)`), not a cusp. -/
theorem c1_collinear_amended :
    ddenom ⟨0, 0⟩ ⟨20, 0⟩ ≠ 0
    ∧ midAlpha ⟨⟨0, 0⟩, ⟨10, 0⟩⟩ ⟨⟨10, 0⟩, ⟨20, 0⟩⟩ ≤ ALPHAMAX
    ∧ clampAlpha (midAlpha ⟨⟨0, 0⟩, ⟨10, 0⟩⟩ ⟨⟨10, 0⟩, ⟨20, 0⟩⟩) = 0.55
    ∧ curvesFromLineMidToMid ALPHAMAX ⟨⟨0, 0⟩, ⟨10, 0⟩⟩ ⟨⟨10, 0⟩, ⟨20, 0⟩⟩
        = ([GraphicElement.cubicCurve ⟨7.75, 0⟩ ⟨12.25, 0⟩ ⟨15, 0⟩], ⟨15, 0⟩) := by
  refine ⟨?_, ?_, ?_, ?_⟩
  · norm_num [ddenom, cardinalDirectionLeft90, sign]
  · norm_num [midAlpha, ddenom, cardinalDirectionLeft90, sign, areaOfParallelogram, ALPHAMAX]
  · norm_num [midAlpha, ddenom, cardinalDirectionLeft90, sign, areaOfParallelogram, clampAlpha]
  · norm_num [curvesFromLineMidToMid, midAlpha, ddenom, cardinalDirectionLeft90, sign,
      areaOfParallelogram, ALPHAMAX, clampAlpha, createSplinePathElement, interval]

/-! ## Claim C2 -/

/-- Claim C2, counterexample: a push whose elapsed time (101 ms) exceeds
`MAX_POINTER_ELAPSED_FOR_SMOOTH` does NOT emit a forced PathLine when the
current vector also violates the constraint region: starting from the state
reached from `init (0,0)` by pushing turn `(2,1)` (first conjunct), pushing
turn `(-5,-5)` with elapsed 101 emits the unforced line `(0,0)→(2,1)`
(forced = false, ending at the previous turn, not the current one). -/
theorem c2_forced_counterexample :
    lineGeneratorPush (LineFitterState.init ⟨0, 0⟩) ⟨2, 1⟩ 5
      = (⟨⟨0, 0⟩, ⟨2, 1⟩, ⟨⟨3, 0⟩, ⟨1, 2⟩⟩⟩, none)
    ∧ 101 > MAX_POINTER_ELAPSED_FOR_SMOOTH
    ∧ lineGeneratorPush ⟨⟨0, 0⟩, ⟨2, 1⟩, ⟨⟨3, 0⟩, ⟨1, 2⟩⟩⟩ ⟨-5, -5⟩ 101
      = (⟨⟨2, 1⟩, ⟨-5, -5⟩, Constraints.init⟩,
         some (⟨⟨0, 0⟩, ⟨2, 1⟩⟩, false)) := by
  refine ⟨?_, by norm_num [MAX_POINTER_ELAPSED_FOR_SMOOTH], ?_⟩
  · norm_num [lineGeneratorPush, LineFitterState.init, Constraints.init,
      Constraints.isViolatedBy, crossProduct, MAX_POINTER_ELAPSED_FOR_SMOOTH,
      Constraints.update, leftOffset, rightOffset]
  · norm_num [lineGeneratorPush, Constraints.isViolatedBy, crossProduct,
      interpolateConstraintViolating]

/-- Claim C2, amended: for every push of a Turn whose elapsed time exceeds
`MAX_POINTER_ELAPSED_FOR_SMOOTH` and whose vector from `startTurn` does not
violate the ConstraintRegion, the LineFitter emits on that same push a forced
PathLine from `startTurn` to the current turn (forced = true), resets the
ConstraintRegion, and sets `startTurn = previousTurn`. -/
theorem c2_forced_amended (s : LineFitterState) (turn : Point)
    (positionElapsedTime : ℕ)
    (hv : ¬ s.constraints.isViolatedBy (turn - s.startTurn))
    (he : positionElapsedTime > MAX_POINTER_ELAPSED_FOR_SMOOTH) :
    lineGeneratorPush s turn positionElapsedTime
      = (⟨s.previousTurn, turn, Constraints.init⟩,
         some (⟨s.startTurn, turn⟩, true)) := by
  simp only [lineGeneratorPush]
  rw [if_neg hv, if_pos he]
  rfl

/-- Claim C2, amended, witness at a concrete input. -/
theorem c2_forced_amended_witness :
    lineGeneratorPush (LineFitterState.init ⟨0, 0⟩) ⟨1, 1⟩ 101
      = (⟨⟨0, 0⟩, ⟨1, 1⟩, Constraints.init⟩,
         some (⟨⟨0, 0⟩, ⟨1, 1⟩⟩, true)) :=
  c2_forced_amended (LineFitterState.init ⟨0, 0⟩) ⟨1, 1⟩ 101
    (by norm_num [LineFitterState.init, Constraints.init, Constraints.isViolatedBy,
      crossProduct])
    (by norm_num [MAX_POINTER_ELAPSED_FOR_SMOOTH])

/-! ## Claim C3 -/

/-- Claim C3: on every push where the vector from `startTurn` to the current
turn violates the ConstraintRegion, the LineFitter emits the unforced
PathLine `startTurn → previousTurn` (the last satisfying turn, exactly what
`interpolateConstraintViolating` returns — no interpolated boundary point),
resets the ConstraintRegion to the zero pair, and sets
`startTurn = previousTurn` while `previousTurn` rolls to the violating turn,
which thus seeds the next line instead of being absorbed. -/
theorem c3_violation_emits (s : LineFitterState) (turn : Point)
    (positionElapsedTime : ℕ)
    (hv : s.constraints.isViolatedBy (turn - s.startTurn)) :
    lineGeneratorPush s turn positionElapsedTime
      = (⟨s.previousTurn, turn, Constraints.init⟩,
         some (⟨s.startTurn, s.previousTurn⟩, false))
    ∧ interpolateConstraintViolating s.startTurn s.previousTurn turn
        = ⟨s.startTurn, s.previousTurn⟩
    ∧ Constraints.init = ⟨⟨0, 0⟩, ⟨0, 0⟩⟩ := by
  refine ⟨?_, rfl, rfl⟩
  simp only [lineGeneratorPush]
  rw [if_pos hv]
  rfl

/-- Claim C3, witness at a concrete input (state reached from `init (0,0)`
by pushing turn `(2,1)`; the vector to `(-5,-5)` violates the left bound). -/
theorem c3_violation_emits_witness :
    lineGeneratorPush ⟨⟨0, 0⟩, ⟨2, 1⟩, ⟨⟨3, 0⟩, ⟨1, 2⟩⟩⟩ ⟨-5, -5⟩ 7
      = (⟨⟨2, 1⟩, ⟨-5, -5⟩, Constraints.init⟩,
         some (⟨⟨0, 0⟩, ⟨2, 1⟩⟩, false)) :=
  (c3_violation_emits ⟨⟨0, 0⟩, ⟨2, 1⟩, ⟨⟨3, 0⟩, ⟨1, 2⟩⟩⟩ ⟨-5, -5⟩ 7
    (by norm_num [Constraints.isViolatedBy, crossProduct])).1

/-! ## Claim C4 -/

/-- Claim C4: on every push where the current vector neither violates the
ConstraintRegion nor exceeds the time limit, nothing is emitted and the
region is updated by `Constraints.update`: the left bound is replaced by its
offset vector iff the cross product of the current left bound with that
offset is non-negative, the right bound by its offset iff the cross product
of the current right bound with that offset is non-positive, each offset
differing from the vector `v` by exactly one unit in each component. -/
theorem c4_quiet_update (s : LineFitterState) (turn : Point)
    (positionElapsedTime : ℕ)
    (hv : ¬ s.constraints.isViolatedBy (turn - s.startTurn))
    (he : ¬ positionElapsedTime > MAX_POINTER_ELAPSED_FOR_SMOOTH) :
    lineGeneratorPush s turn positionElapsedTime
      = (⟨s.startTurn, turn, s.constraints.update (turn - s.startTurn)⟩, none)
    ∧ (∀ (c : Constraints) (v : Point),
        Constraints.update c v =
          ⟨if crossProduct c.constraintLeft (leftOffset v) ≥ 0 then leftOffset v
              else c.constraintLeft,
           if crossProduct c.constraintRight (rightOffset v) ≤ 0 then rightOffset v
              else c.constraintRight⟩)
    ∧ (∀ v : Point,
        |(leftOffset v).x - v.x| = 1 ∧ |(leftOffset v).y - v.y| = 1
        ∧ |(rightOffset v).x - v.x| = 1 ∧ |(rightOffset v).y - v.y| = 1) := by
  refine ⟨?_, ?_, ?_⟩
  · simp only [lineGeneratorPush]
    rw [if_neg hv, if_neg he]
  · intro c v
    unfold Constraints.update
    split_ifs <;> simp_all
  · intro v
    unfold leftOffset rightOffset
    refine ⟨?_, ?_, ?_, ?_⟩ <;> (dsimp only; split_ifs <;> simp)

/-- Claim C4, witness at a concrete input: the first push of turn `(2,1)`
from `init (0,0)` emits nothing and tightens the constraints. -/
theorem c4_quiet_update_witness :
    lineGeneratorPush (LineFitterState.init ⟨0, 0⟩) ⟨2, 1⟩ 5
      = (⟨⟨0, 0⟩, ⟨2, 1⟩,
          Constraints.update Constraints.init (⟨2, 1⟩ - (⟨0, 0⟩ : Point))⟩, none) :=
  (c4_quiet_update (LineFitterState.init ⟨0, 0⟩) ⟨2, 1⟩ 5
    (by norm_num [LineFitterState.init, Constraints.init, Constraints.isViolatedBy,
      crossProduct])
    (by norm_num [MAX_POINTER_ELAPSED_FOR_SMOOTH])).1

/-! ## Claim C5 -/

/-- Claim C5: in the mid-to-mid fit, if `alpha > alphamax` the result is
exactly two `LineSegment`s, the first ending at the shared joint
`point2 = line1.p2` and the second at the midpoint of the second line, and
the returned end point is that midpoint; otherwise `alpha` is clamped into
`[0.55, 1]` and the result is a single `CubicCurve` with
`control1 = interval(0.5+0.5*alpha, point1, point2)`,
`control2 = interval(0.5+0.5*alpha, point3, point2)`, and endpoint the
midpoint of the second line. -/
theorem c5_cusp_or_curve (alphamax : ℚ) (line1 line2 : PathLine) :
    (midAlpha line1 line2 > alphamax →
      curvesFromLineMidToMid alphamax line1 line2 =
        ([GraphicElement.lineSegment line1.p2,
          GraphicElement.lineSegment (interval (1/2) line2.p2 line1.p2)],
         interval (1/2) line2.p2 line1.p2))
    ∧ (midAlpha line1 line2 ≤ alphamax →
      (0.55 ≤ clampAlpha (midAlpha line1 line2)
        ∧ clampAlpha (midAlpha line1 line2) ≤ 1)
      ∧ curvesFromLineMidToMid alphamax line1 line2 =
        ([GraphicElement.cubicCurve
            (interval (0.5 + 0.5 * clampAlpha (midAlpha line1 line2)) line1.p1 line1.p2)
            (interval (0.5 + 0.5 * clampAlpha (midAlpha line1 line2)) line2.p2 line1.p2)
            (interval (1/2) line2.p2 line1.p2)],
         interval (1/2) line2.p2 line1.p2)) := by
  constructor
  · intro h
    rw [curvesFromLineMidToMid, if_pos h]
    rfl
  · intro h
    refine ⟨?_, ?_⟩
    · unfold clampAlpha
      split_ifs with h1 h2
      · exact ⟨le_refl _, by norm_num⟩
      · exact ⟨by norm_num, le_refl _⟩
      · push_neg at h1 h2
        exact ⟨h1, h2⟩
    · rw [curvesFromLineMidToMid, if_neg (not_lt.mpr h)]
      rfl

/-- Claim C5, witness: both branches at concrete inputs — with
`alphamax = -1` the collinear triple gives a cusp (two `LineSegment`s), with
`alphamax = ALPHAMAX` it gives a single `CubicCurve`. -/
theorem c5_cusp_or_curve_witness :
    curvesFromLineMidToMid (-1) ⟨⟨0, 0⟩, ⟨10, 0⟩⟩ ⟨⟨10, 0⟩, ⟨20, 0⟩⟩
      = ([GraphicElement.lineSegment ⟨10, 0⟩, GraphicElement.lineSegment ⟨15, 0⟩],
         ⟨15, 0⟩)
    ∧ curvesFromLineMidToMid 1.2 ⟨⟨0, 0⟩, ⟨10, 0⟩⟩ ⟨⟨10, 0⟩, ⟨20, 0⟩⟩
      = ([GraphicElement.cubicCurve ⟨7.75, 0⟩ ⟨12.25, 0⟩ ⟨15, 0⟩], ⟨15, 0⟩) := by
  constructor
  · have h := (c5_cusp_or_curve (-1) ⟨⟨0, 0⟩, ⟨10, 0⟩⟩ ⟨⟨10, 0⟩, ⟨20, 0⟩⟩).1
      (by norm_num [midAlpha, ddenom, cardinalDirectionLeft90, sign, areaOfParallelogram])
    rw [h]
    norm_num [interval]
  · have h := ((c5_cusp_or_curve 1.2 ⟨⟨0, 0⟩, ⟨10, 0⟩⟩ ⟨⟨10, 0⟩, ⟨20, 0⟩⟩).2
      (by norm_num [midAlpha, ddenom, cardinalDirectionLeft90, sign,
        areaOfParallelogram])).2
    rw [h]
    norm_num [interval, clampAlpha, midAlpha, ddenom, cardinalDirectionLeft90, sign,
      areaOfParallelogram]

/-! ## Claim C6 -/

/-- Claim C6: for every pair of input lines the computed `alpha` lies in
`[0, 4/3]`; consequently any `alphamax < 0` sends every joint to the cusp
branch (two `LineSegment`s) and any `alphamax > 4/3` makes the cusp branch
unreachable (a single `CubicCurve` always). -/
theorem c6_alpha_range (alphamax : ℚ) (line1 line2 : PathLine) :
    (0 ≤ midAlpha line1 line2 ∧ midAlpha line1 line2 ≤ 4 / 3)
    ∧ (alphamax < 0 →
        (curvesFromLineMidToMid alphamax line1 line2).1
          = [GraphicElement.lineSegment line1.p2,
             GraphicElement.lineSegment (interval (1/2) line2.p2 line1.p2)])
    ∧ (4 / 3 < alphamax →
        (curvesFromLineMidToMid alphamax line1 line2).1
          = [GraphicElement.cubicCurve
              (interval (0.5 + 0.5 * clampAlpha (midAlpha line1 line2)) line1.p1 line1.p2)
              (interval (0.5 + 0.5 * clampAlpha (midAlpha line1 line2)) line2.p2 line1.p2)
              (interval (1/2) line2.p2 line1.p2)]) := by
  refine ⟨midAlpha_nonneg_le line1 line2, fun h => ?_, fun h => ?_⟩
  · rw [curvesFromLineMidToMid,
      if_pos (lt_of_lt_of_le h (midAlpha_nonneg_le line1 line2).1)]
    rfl
  · rw [curvesFromLineMidToMid,
      if_neg (not_lt.mpr (le_of_lt (lt_of_le_of_lt (midAlpha_nonneg_le line1 line2).2 h)))]
    rfl

/-- Claim C6, witness: with `alphamax = -1` the fit is a cusp and with
`alphamax = 2 > 4/3` it is a curve, at a concrete pair of lines. -/
theorem c6_alpha_range_witness :
    (curvesFromLineMidToMid (-1) ⟨⟨0, 0⟩, ⟨4, 4⟩⟩ ⟨⟨4, 4⟩, ⟨8, 0⟩⟩).1
      = [GraphicElement.lineSegment ⟨4, 4⟩, GraphicElement.lineSegment ⟨6, 2⟩]
    ∧ (curvesFromLineMidToMid 2 ⟨⟨0, 0⟩, ⟨4, 4⟩⟩ ⟨⟨4, 4⟩, ⟨8, 0⟩⟩).1
      = [GraphicElement.cubicCurve ⟨4, 4⟩ ⟨4, 4⟩ ⟨6, 2⟩] := by
  constructor
  · have h := (c6_alpha_range (-1) ⟨⟨0, 0⟩, ⟨4, 4⟩⟩ ⟨⟨4, 4⟩, ⟨8, 0⟩⟩).2.1 (by norm_num)
    rw [h]
    norm_num [interval]
  · have h := (c6_alpha_range 2 ⟨⟨0, 0⟩, ⟨4, 4⟩⟩ ⟨⟨4, 4⟩, ⟨8, 0⟩⟩).2.2 (by norm_num)
    rw [h]
    norm_num [interval, clampAlpha, midAlpha, ddenom, cardinalDirectionLeft90, sign,
      areaOfParallelogram]

/-! ## Claim C7 -/

/-- Claim C7: every push of the curve-fitting stage emits a non-empty list of
GraphicElements whose last element's endpoint equals the returned path end
point — so the emitted sequence, each element implicitly starting at the
previous one's endpoint, is positionally continuous with no gaps. -/
theorem c7_continuity (alphamax : ℚ) (previousLine line : PathLine)
    (isLineForced : Bool) :
    Option.map GraphicElement.endpoint
        (curveGeneratorPush alphamax previousLine line isLineForced).2.1.getLast?
      = some (curveGeneratorPush alphamax previousLine line isLineForced).2.2 := by
  cases isLineForced
  · simp only [curveGeneratorPush, Bool.false_eq_true, if_false, curvesFromLineMidToMid]
    split_ifs <;> rfl
  · simp only [curveGeneratorPush, if_true, curvesFromLineMidToEnd, curvesFromLineMidToMid]
    split_ifs <;> rfl

/-! ## Claim C8 -/

/-- Claim C8, counterexample: start the TurnDetector at `(0,0)` and push the
single position `(0,0)` (axis-aligned with its predecessor, so never emitted
as a Turn — the push emits nothing and no earlier push exists); yet close
also emits nothing, refuting the claim that close then emits exactly one
final Turn equal to the last pushed position. -/
theorem c8_close_counterexample :
    (turnGeneratorPush (TurnDetectorState.init ⟨0, 0⟩) ⟨0, 0⟩ 5).2 = none
    ∧ turnGeneratorClose (turnGeneratorPush (TurnDetectorState.init ⟨0, 0⟩) ⟨0, 0⟩ 5).1
        = none := by
  norm_num [turnGeneratorPush, turnGeneratorClose, TurnDetectorState.init, detectTurn]

/-- Claim C8, amended: after any push (in particular the last), close emits
exactly one final Turn `(position, 0)` — `position` the last pushed position
— if and only if that push was not emitted as a Turn AND the position differs
from `previousPosition` (the last emitted Turn, or the start position if
none); if the last push was emitted as a Turn, or the last pushed position
equals `previousPosition`, close emits nothing. -/
theorem c8_close_amended (s : TurnDetectorState) (position : Point)
    (positionElapsedTime : ℕ) :
    ((turnGeneratorPush s position positionElapsedTime).2.isSome →
      turnGeneratorClose (turnGeneratorPush s position positionElapsedTime).1 = none)
    ∧ ((turnGeneratorPush s position positionElapsedTime).2 = none →
        position ≠ s.previousPosition →
        turnGeneratorClose (turnGeneratorPush s position positionElapsedTime).1
          = some (position, 0))
    ∧ (position = s.previousPosition →
        turnGeneratorClose (turnGeneratorPush s position positionElapsedTime).1
          = none) := by
  unfold turnGeneratorPush detectTurn
  split_ifs with h
  · refine ⟨fun _ => ?_, fun hnone => absurd hnone (by simp), fun heq => ?_⟩
    · unfold turnGeneratorClose
      simp
    · exact absurd (congrArg Point.x heq.symm) h.1
  · refine ⟨by simp, fun _ hne => ?_, fun heq => ?_⟩
    · unfold turnGeneratorClose
      simp only
      rw [if_pos (Ne.symm hne)]
    · unfold turnGeneratorClose
      simp only
      rw [if_neg (fun hcontra => hcontra heq.symm)]

/-- Claim C8, amended, witness: pushing `(5,0)` (axis-aligned, not emitted)
after starting at `(0,0)`, close emits the fabricated Turn `((5,0), 0)`. -/
theorem c8_close_amended_witness :
    turnGeneratorClose (turnGeneratorPush (TurnDetectorState.init ⟨0, 0⟩) ⟨5, 0⟩ 3).1
      = some (⟨5, 0⟩, 0) :=
  (c8_close_amended (TurnDetectorState.init ⟨0, 0⟩) ⟨5, 0⟩ 3).2.1
    (by norm_num [turnGeneratorPush, detectTurn, TurnDetectorState.init])
    (by norm_num [TurnDetectorState.init])

/-! ## Claim C9 -/

/-- Claim C9: immediately after construction or reset the ConstraintRegion is
the zero-vector pair, `isViolatedBy` holds for no vector on that region (both
cross products are 0), and hence a push from a state whose constraints are
the fresh region can never emit a PathLine via constraint violation — any
emission on such a push is the forced one. -/
theorem c9_init_not_violated (v : Point) (s : LineFitterState) (turn : Point)
    (positionElapsedTime : ℕ) (hc : s.constraints = Constraints.init) :
    Constraints.init = ⟨⟨0, 0⟩, ⟨0, 0⟩⟩
    ∧ ¬ Constraints.init.isViolatedBy v
    ∧ ((lineGeneratorPush s turn positionElapsedTime).2 = none
        ∨ (lineGeneratorPush s turn positionElapsedTime).2
            = some (⟨s.startTurn, turn⟩, true)) := by
  have hnv : ∀ w : Point, ¬ Constraints.init.isViolatedBy w := by
    intro w
    unfold Constraints.isViolatedBy Constraints.init crossProduct
    simp
  refine ⟨rfl, hnv v, ?_⟩
  simp only [lineGeneratorPush, hc]
  rw [if_neg (hnv _)]
  split_ifs
  · right
    rfl
  · left
    rfl

/-- Claim C9, witness: from the freshly initialized LineFitter state, a push
emits nothing (here elapsed = 5 ≤ 100, so the quiet branch is taken). -/
theorem c9_init_not_violated_witness :
    (lineGeneratorPush (LineFitterState.init ⟨0, 0⟩) ⟨3, 4⟩ 5).2 = none
    ∨ (lineGeneratorPush (LineFitterState.init ⟨0, 0⟩) ⟨3, 4⟩ 5).2
        = some (⟨⟨0, 0⟩, ⟨3, 4⟩⟩, true) :=
  (c9_init_not_violated ⟨1, 1⟩ (LineFitterState.init ⟨0, 0⟩) ⟨3, 4⟩ 5 rfl).2.2

/-! ## Claim C10 -/

/-- Claim C10: for all points, `ddenom p0 p1 = |p1.x - p0.x| + |p1.y - p0.y|`,
which is zero iff `p0 = p1`; hence the degenerate `alpha = 4/3` branch of the
mid-to-mid fit (taken exactly when `ddenom point1 point3 = 0`) never fires
when the outer points `point1 = line1.p1` and `point3 = line2.p2` differ —
in particular never for three distinct collinear points. -/
theorem c10_ddenom_abs (p0 p1 : Point) (line1 line2 : PathLine)
    (h : line1.p1 ≠ line2.p2) :
    ddenom p0 p1 = |p1.x - p0.x| + |p1.y - p0.y|
    ∧ (ddenom p0 p1 = 0 ↔ p0 = p1)
    ∧ ddenom line1.p1 line2.p2 ≠ 0 := by
  refine ⟨ddenom_eq_abs p0 p1, ddenom_eq_zero_iff p0 p1, ?_⟩
  rw [Ne, ddenom_eq_zero_iff]
  exact h

/-- Claim C10, witness at the collinear test points: `ddenom((0,0),(20,0))`
is `|20| + |0|` and nonzero since the outer points differ. -/
theorem c10_ddenom_abs_witness :
    ddenom ⟨0, 0⟩ ⟨20, 0⟩ = |(20:ℚ) - 0| + |(0:ℚ) - 0|
    ∧ (ddenom ⟨0, 0⟩ ⟨20, 0⟩ = 0 ↔ (⟨0, 0⟩ : Point) = ⟨20, 0⟩)
    ∧ ddenom ⟨0, 0⟩ ⟨20, 0⟩ ≠ 0 :=
  c10_ddenom_abs ⟨0, 0⟩ ⟨20, 0⟩ ⟨⟨0, 0⟩, ⟨10, 0⟩⟩ ⟨⟨10, 0⟩, ⟨20, 0⟩⟩
    (by norm_num)

end Freehand
